import Mathlib

/-!
Verification of the EagleVision "Pizza Monitor" pipeline.

Shallow embedding of the three services:
- `services/detection/app.py` (ViolationRuleEngine): `boxes_overlap`, `is_in_roi`,
  the per-frame rule evaluation loop of `ViolationDetector.process_frame`, the
  message-handling control flow of `process_frame`, and `connect_db`.
- `services/frame_reader/app.py` (FrameProducer): `FrameReader.read_video`.
- `services/streaming/app.py` (ResultAggregator / QueryAPI): `process_detection`,
  the query helpers, the HTTP endpoints, and `connect_db`.

Bounding-box coordinates are embedded as integers (the ROI rectangles in the
source are integer tuples; detector outputs are numeric coordinates of which
only order and arithmetic comparisons are used by the code under study).
-/

/-- An axis-aligned rectangle `(x1, y1, x2, y2)`, as the 4-tuples used
throughout `detection/app.py`. -/
structure Box where
  x1 : Int
  y1 : Int
  x2 : Int
  y2 : Int
deriving DecidableEq, Repr

/-- `boxes_overlap(boxA, boxB, iou_threshold=0.1)` from `detection/app.py`
(lines 53-73).  Computes the intersection rectangle; returns `False` when the
intersection is empty on either axis or its area is `<= 0`, else `True`.
The `iou_threshold` parameter is present in the source signature but is never
read in the body. -/
def boxes_overlap (boxA boxB : Box) (iou_threshold : ℚ) : Bool :=
  let x_left   := max boxA.x1 boxB.x1
  let y_top    := max boxA.y1 boxB.y1
  let x_right  := min boxA.x2 boxB.x2
  let y_bottom := min boxA.y2 boxB.y2
  if x_right < x_left ∨ y_bottom < y_top then
    false
  else
    let inter_area := (x_right - x_left) * (y_bottom - y_top)
    if inter_area ≤ 0 then false else true

/-- The default value of the `iou_threshold` parameter in the source
(`iou_threshold=0.1`). -/
def default_iou_threshold : ℚ := 1 / 10

/-- The module-level `ROIS` list of `detection/app.py` (line 48):
a single rectangle `(48, 34, 55, 36)`. -/
def ROIS : List Box := [⟨48, 34, 55, 36⟩]

/-- `is_in_roi(bbox, rois)` from `detection/app.py` (lines 76-78):
`any(boxes_overlap(bbox, roi) for roi in rois)`, the call using the default
threshold. -/
def is_in_roi (bbox : Box) (rois : List Box) : Bool :=
  rois.any (fun roi => boxes_overlap bbox roi default_iou_threshold)

/-- One detector output entry, as built in `process_frame` (lines 194-201):
`{'class': ..., 'confidence': ..., 'bbox': ...}`.  The dictionary key
`class` is embedded as the field `cls`. -/
structure Detection where
  cls : String
  confidence : ℚ
  bbox : Box
deriving DecidableEq, Repr

/-- `hands = [d for d in detections if d['class'] == 'hand']` (line 204). -/
def hands (detections : List Detection) : List Detection :=
  detections.filter (fun d => d.cls == "hand")

/-- `scoops = [d for d in detections if d['class'] == 'scooper']` (line 205). -/
def scoops (detections : List Detection) : List Detection :=
  detections.filter (fun d => d.cls == "scooper")

/-- `pizzas = [d for d in detections if d['class'] == 'pizza']` (line 206). -/
def pizzas (detections : List Detection) : List Detection :=
  detections.filter (fun d => d.cls == "pizza")

/-- One entry of the `violation_bboxes` list (lines 220-223):
`{'hand': hb, 'pizza': pizza['bbox']}`. -/
structure ViolationPair where
  hand : Box
  pizza : Box
deriving DecidableEq, Repr

/-- The inner `for pizza in pizzas: if boxes_overlap(hb, pizza['bbox']): ...
break` loop (lines 217-224): the bbox of the first pizza in list order that
overlaps the hand box, if any. -/
def firstOverlappingPizza (hb : Box) : List Detection → Option Box
  | [] => none
  | p :: rest =>
      if boxes_overlap hb p.bbox default_iou_threshold then some p.bbox
      else firstOverlappingPizza hb rest

/-- The `for hand in hands:` loop of `process_frame` (lines 211-224), carrying
the pair of mutable accumulators `(violation_count, violation_bboxes)`.
Each hand:
- is skipped unless `is_in_roi(hb, ROIS)`;
- is skipped when `any(boxes_overlap(hb, s['bbox']) for s in scoops)`
  (`holding_scooper`);
- otherwise contributes `violation_count += 1` and one appended pair for the
  first overlapping pizza (the `break`), or nothing when no pizza overlaps. -/
def processHands (rois : List Box) (ss ps : List Detection) :
    List Detection → Nat × List ViolationPair
  | [] => (0, [])
  | hand :: rest =>
      let contrib : Nat × List ViolationPair :=
        if is_in_roi hand.bbox rois then
          let holding_scooper :=
            ss.any (fun s => boxes_overlap hand.bbox s.bbox default_iou_threshold)
          if holding_scooper then (0, [])
          else
            match firstOverlappingPizza hand.bbox ps with
            | some pb => (1, [⟨hand.bbox, pb⟩])
            | none => (0, [])
        else (0, [])
      let tail := processHands rois ss ps rest
      (contrib.1 + tail.1, contrib.2 ++ tail.2)

/-- Modelled from the spec (§4.2 step 6), for comparison with `processHands`:
"for each in-scope hand, it is covered iff it overlaps any utensil detection.
If not covered, the engine scans pizza detections in their given order and
records a violation pairing with the first pizza the hand overlaps".  The
first-match scan is rendered with `List.find?`. -/
def handViolationSpec (rois : List Box) (ss ps : List Detection)
    (d : Detection) : Option ViolationPair :=
  if is_in_roi d.bbox rois then
    if ss.any (fun s => boxes_overlap d.bbox s.bbox default_iou_threshold) then
      none
    else
      (ps.find? (fun p => boxes_overlap d.bbox p.bbox default_iou_threshold)).map
        (fun p => ⟨d.bbox, p.bbox⟩)
  else none

/-!
Message-handling control flow of `ViolationDetector.process_frame`
(lines 170-266).  The whole body runs inside a single `try`; `except` performs
`basic_nack(..., requeue=False)`.  The fallible steps are embedded as explicit
alternatives of the input:
- `json.loads(body)` raising  ↦ `Body.malformed`;
- `message.get('frame') is None`  ↦ `frame = none`;
- `base64.b64decode(frame_b64)` raising  ↦ `FrameField.badBase64`;
- `cv2.imdecode(...) is None`  ↦ `ImagePayload.undecodable`;
- the detector being a black box, a decodable image is embedded directly as
  the detection list `self.model(frame)` yields for it;
- the `INSERT INTO violations` raising  ↦ the `insertOk` parameter being
  `false` (the database cursor is external state).
-/

/-- Outcome of decoding the image bytes (`cv2.imdecode`). -/
inductive ImagePayload where
  /-- `cv2.imdecode` returns `None`. -/
  | undecodable
  /-- A decodable image, embedded as the detection list the model returns. -/
  | image (dets : List Detection)
deriving DecidableEq, Repr

/-- The `frame` field of a parsed message. -/
inductive FrameField where
  /-- `base64.b64decode` raises on this value. -/
  | badBase64
  /-- Valid base64, decoding to `payload`. -/
  | bytes (payload : ImagePayload)
deriving DecidableEq, Repr

/-- A message successfully parsed by `json.loads` (lines 173-177); every field
is read with `dict.get`, hence optional. -/
structure ParsedMessage where
  video_name : Option String
  frame_id : Option Nat
  timestamp : Option ℚ
  frame : Option FrameField
deriving DecidableEq, Repr

/-- The raw message body: either `json.loads` raises, or it yields a parsed
message. -/
inductive Body where
  /-- `json.loads(body)` raises. -/
  | malformed
  | parsed (m : ParsedMessage)
deriving DecidableEq, Repr

/-- The `result_message` dict published on the `detection_results` exchange
(lines 247-253); the wall-clock `timestamp` field is omitted. -/
structure ResultMessage where
  video_name : Option String
  frame_id : Option Nat
  detections : List Detection
  violation_count : Nat
deriving DecidableEq, Repr

/-- How `process_frame` disposes of a message. -/
inductive MsgOutcome where
  /-- `basic_ack` without publishing (the two early-return drops). -/
  | ackDropped
  /-- The result was published, then `basic_ack`; `inserted` records whether
  the `INSERT INTO violations` was executed. -/
  | ackedResult (res : ResultMessage) (inserted : Bool)
  /-- The `except` branch ran: `basic_nack(..., requeue=False)`; nothing was
  published. -/
  | nacked
deriving DecidableEq, Repr

/-- `ViolationDetector.process_frame` (lines 170-266) over the embedded input.
Mirrors the source control flow: parse, early ack-drops for a missing frame
field or an undecodable image, rule evaluation, conditional insert (a raising
insert aborts to the `except` branch), publish, ack. -/
def process_frame (rois : List Box) (insertOk : Bool) (body : Body) :
    MsgOutcome :=
  match body with
  | .malformed => .nacked
  | .parsed m =>
    match m.frame with
    | none => .ackDropped
    | some .badBase64 => .nacked
    | some (.bytes .undecodable) => .ackDropped
    | some (.bytes (.image dets)) =>
      let r := processHands rois (scoops dets) (pizzas dets) (hands dets)
      if r.1 > 0 then
        if insertOk then
          .ackedResult ⟨m.video_name, m.frame_id, dets, r.1⟩ true
        else .nacked
      else
        .ackedResult ⟨m.video_name, m.frame_id, dets, r.1⟩ false

/-!
Startup connection logic.

`ViolationDetector.connect_db` (detection, lines 110-129) and
`StreamingManager.connect_db` (streaming, lines 38-55) both loop
`while retry_count < max_retries` with `max_retries = 5` and `time.sleep(2)`
after a failed attempt.  They differ on exhaustion: the detection variant
falls off the loop and returns `None` (the caller proceeds), the streaming
variant re-raises the last exception.  An attempt schedule is embedded as a
function `ok : Nat → Bool` telling whether the i-th attempt (0-based)
succeeds.
-/

/-- The retry loop: `remaining` attempts left, next attempt index `i`;
returns the index of the first successful attempt, or `none` when all
remaining attempts fail. -/
def connect_attempts (ok : Nat → Bool) : Nat → Nat → Option Nat
  | 0, _ => none
  | remaining + 1, i => if ok i then some i else connect_attempts ok remaining (i + 1)

/-- `ViolationDetector.connect_db` / `connect_rabbitmq` (detection service):
5 bounded attempts; on exhaustion the method simply returns with the
connection attribute still `None`. -/
def detection_connect (ok : Nat → Bool) : Option Nat :=
  connect_attempts ok 5 0

/-- `StreamingManager.connect_db` / `connect_rabbitmq` (streaming service):
5 bounded attempts; on exhaustion the method re-raises (`Except.error`). -/
def streaming_connect (ok : Nat → Bool) : Except Unit Nat :=
  match connect_attempts ok 5 0 with
  | some i => .ok i
  | none => .error ()

/-- What a service process reaches after its startup sequence. -/
inductive StartupOutcome where
  /-- The process entered its steady-state loop; `ok` tells whether the
  startup connections all succeeded. -/
  | running (ok : Bool)
  /-- The process terminated with an unhandled error. -/
  | crashed
deriving DecidableEq, Repr

/-- The detection service `__main__` block (lines 280-296): `connect_db()`,
`connect_rabbitmq()`, `start_consuming()`, with no error handling.  A failed
`connect_db` leaves `db_conn = None` and the program continues; a failed
`connect_rabbitmq` leaves `channel = None`, so `start_consuming`'s
`self.channel.basic_qos(...)` raises an unhandled `AttributeError`. -/
def detection_main (dbOk mqOk : Nat → Bool) : StartupOutcome :=
  let db := detection_connect dbOk
  let mq := detection_connect mqOk
  if mq.isSome then .running db.isSome else .crashed

/-- `StreamingManager.__init__` (lines 22-36): `connect_db()` then
`connect_rabbitmq()`, either of which may raise. -/
def streaming_manager_init (dbOk mqOk : Nat → Bool) : Except Unit Unit := do
  let _ ← streaming_connect dbOk
  let _ ← streaming_connect mqOk
  return ()

/-- The streaming module top level (lines 159-173 plus `app.run`): the
`StreamingManager(...)` construction is wrapped in `try/except` that only
logs, and the Flask server starts regardless, so the process always reaches
its serving loop; `running false` means it serves with `manager` never
bound. -/
def streaming_main (dbOk mqOk : Nat → Bool) : StartupOutcome :=
  match streaming_manager_init dbOk mqOk with
  | .ok _ => .running true
  | .error _ => .running false

/-!
FrameProducer: `FrameReader.read_video` (`frame_reader/app.py`, lines 68-103).
-/

/-- `frame_skip = max(1, int(fps / max_fps))` (line 84).  `fps` is the
source's native rate (`cv2.CAP_PROP_FPS`, a nonnegative float, embedded as a
rational); Python's `int(...)` truncates toward zero, which for the
nonnegative quotients arising here is the floor, and `Int.toNat` composed
with `max 1` agrees with `max(1, int(...))` on every rational input. -/
def frame_skip (fps max_fps : ℚ) : Nat :=
  max 1 (Int.toNat ⌊fps / max_fps⌋)

/-- A published frame message, reduced to the `frame_id` field that
`publish_frame` receives from the reading loop (line 97); the source also
uses this value as the per-video sequence number. -/
structure FrameMsg where
  frame_id : Nat
deriving DecidableEq, Repr

/-- The reading loop of `read_video` (lines 85-100): `frame_id` counts
successful `cap.read()` calls starting at 1 (so it ranges over
`[1, ..., totalFrames]`), and the frame is published iff
`frame_id % frame_skip == 0`. -/
def read_video (totalFrames : Nat) (fps max_fps : ℚ) : List FrameMsg :=
  ((List.range' 1 totalFrames).filter
      (fun i => i % frame_skip fps max_fps == 0)).map (fun i => ⟨i⟩)

/-!
ResultAggregator: `StreamingManager.process_detection`
(`streaming/app.py`, lines 86-105) and its in-memory state.

Python `dict`s keyed by `message['video_name']` are embedded as functions
`Option String → Option _` (the `video_name` field of a DetectionResult may
be JSON `null`, which is a legal dictionary key in the source).
-/

/-- The two caches of `StreamingManager` (lines 31-32):
`latest_detections` and `video_violations`. -/
structure AggState where
  latest_detections : Option String → Option ResultMessage
  video_violations : Option String → Option Nat

/-- The state at construction: both dictionaries empty. -/
def initAggState : AggState :=
  ⟨fun _ => none, fun _ => none⟩

/-- The state update of `process_detection` on a well-formed message
(lines 89-97): overwrite `latest_detections[video_name]`; insert `0` into
`video_violations` on first sight of the video; add `violation_count`. -/
def process_detection (st : AggState) (msg : ResultMessage) : AggState :=
  let v := msg.video_name
  let prev : Nat :=
    match st.video_violations v with
    | none => 0
    | some c => c
  { latest_detections := fun k => if k = v then some msg else st.latest_detections k
    video_violations := fun k => if k = v then some (prev + msg.violation_count)
                                 else st.video_violations k }

/-- Folding the consumer callback over a list of consumed messages. -/
def consumeAll (st : AggState) (msgs : List ResultMessage) : AggState :=
  msgs.foldl process_detection st

/-!
QueryAPI: the store query helpers and HTTP endpoints of `streaming/app.py`.
A store query is embedded as its outcome, `Except String α`: `.error e`
stands for the cursor call raising with message `e`.
-/

/-- A persisted violation row, reduced to its store-assigned id (the query
endpoints below only move rows around, never inspect them). -/
structure DBRow where
  id : Nat
deriving DecidableEq, Repr

/-- `StreamingManager.get_violation_count_from_db` (lines 124-137): the query
runs inside `try`; on any exception the helper logs and returns `0`. -/
def get_violation_count_from_db (q : Except String Nat) : Nat :=
  match q with
  | .ok n => n
  | .error _ => 0

/-- `StreamingManager.get_violations_from_db` (lines 139-156): the query runs
inside `try`; on any exception the helper logs and returns `[]`. -/
def get_violations_from_db (q : Except String (List DBRow)) : List DBRow :=
  match q with
  | .ok rows => rows
  | .error _ => []

/-- The HTTP response of `GET /api/violations/<video_name>`: status code plus
the fields of the two possible JSON bodies. -/
structure ViolationsResponse where
  status : Nat
  total_violations : Option Nat
  violations : Option (List DBRow)
  error : Option String
deriving DecidableEq, Repr

/-- The `get_violations` endpoint (lines 177-191).  When the module-level
`manager` is bound (`managerOk`), the `try` body only calls the two helpers —
which catch store failures internally — so it always returns 200; when
`manager` is unbound (initialization failed), evaluating `manager` raises a
`NameError`, caught by the endpoint's `except` into a 500 with an
`{'error': ...}` body. -/
def get_violations_route (managerOk : Bool) (countQ : Except String Nat)
    (listQ : Except String (List DBRow)) : ViolationsResponse :=
  if managerOk then
    { status := 200
      total_violations := some (get_violation_count_from_db countQ)
      violations := some (get_violations_from_db listQ)
      error := none }
  else
    { status := 500
      total_violations := none
      violations := none
      error := some "name 'manager' is not defined" }

/-- The HTTP response of `GET /api/violations-list`. -/
structure ViolationsListResponse where
  status : Nat
  videos : Option (List (String × Nat))
  error : Option String
deriving DecidableEq, Repr

/-- The `get_all_violations` endpoint (lines 193-213): it runs its store
query directly inside the endpoint's own `try`, so a raising query reaches
the `except` branch and yields a 500 with an `{'error': ...}` body. -/
def violations_list_route (managerOk : Bool)
    (q : Except String (List (String × Nat))) : ViolationsListResponse :=
  if managerOk then
    match q with
    | .ok rows => { status := 200, videos := some rows, error := none }
    | .error e => { status := 500, videos := none, error := some e }
  else
    { status := 500, videos := none
      error := some "name 'manager' is not defined" }

/-!
Concrete sample inputs, taken from the spec's concrete scenario (§8): a hand
box `(50,34,56,37)` overlapping the configured ROI `(48,34,55,36)`, no
scooper, and a pizza box `(49,33,57,38)` overlapping the hand.
-/

/-- A hand detection inside the ROI. -/
def sampleHand : Detection := ⟨"hand", 1, ⟨50, 34, 56, 37⟩⟩

/-- A pizza detection overlapping `sampleHand`. -/
def samplePizza : Detection := ⟨"pizza", 1, ⟨49, 33, 57, 38⟩⟩

/-- A frame whose evaluation yields exactly one violation pairing. -/
def sampleDets : List Detection := [sampleHand, samplePizza]

/-- A well-formed frame message carrying `sampleDets`. -/
def sampleMessage : ParsedMessage :=
  ⟨some "vid", some 7, some 0, some (.bytes (.image sampleDets))⟩

/-- Two detection results for the same video, with violation counts 3 and 4. -/
def sampleResults : List ResultMessage :=
  [⟨some "vid", some 1, [], 3⟩, ⟨some "vid", some 2, [], 4⟩]

/-!
Helper lemmas about the rule-evaluation loop.
-/

/-- The inner pizza scan with its `break` returns the bbox of the first
pizza (in list order) that overlaps the hand. -/
theorem firstOverlappingPizza_eq_find (hb : Box) (ps : List Detection) :
    firstOverlappingPizza hb ps
      = (ps.find? (fun p => boxes_overlap hb p.bbox default_iou_threshold)).map
          Detection.bbox := by
  induction ps with
  | nil => rfl
  | cons p rest ih =>
      by_cases h : boxes_overlap hb p.bbox default_iou_threshold
      · simp [firstOverlappingPizza, List.find?_cons, h]
      · simp [firstOverlappingPizza, List.find?_cons, h, ih]

/-- The pairing list built by the hand loop is the per-hand `filterMap` of the
spec-side characterization. -/
theorem processHands_snd (rois : List Box) (ss ps : List Detection)
    (hs : List Detection) :
    (processHands rois ss ps hs).2 = hs.filterMap (handViolationSpec rois ss ps) := by
  induction hs with
  | nil => rfl
  | cons hand rest ih =>
      simp only [processHands, List.filterMap_cons, handViolationSpec,
        firstOverlappingPizza_eq_find]
      by_cases h1 : is_in_roi hand.bbox rois
      · simp only [h1, if_true]
        by_cases h2 : ss.any (fun s => boxes_overlap hand.bbox s.bbox default_iou_threshold)
        · simp [h2, ih]
        · simp only [h2, if_false, Bool.false_eq_true]
          cases hf : ps.find? (fun p => boxes_overlap hand.bbox p.bbox default_iou_threshold) with
          | none => simp [hf, ih]
          | some p => simp [hf, ih]
      · simp [h1, ih]

/-- The two accumulators of the hand loop agree: the counter equals the
length of the pairing list. -/
theorem processHands_fst (rois : List Box) (ss ps : List Detection)
    (hs : List Detection) :
    (processHands rois ss ps hs).1 = (processHands rois ss ps hs).2.length := by
  induction hs with
  | nil => rfl
  | cons hand rest ih =>
      simp only [processHands, List.length_append]
      by_cases h1 : is_in_roi hand.bbox rois
      · simp only [h1, if_true]
        by_cases h2 : ss.any (fun s => boxes_overlap hand.bbox s.bbox default_iou_threshold)
        · simpa [h2] using ih
        · simp only [h2, if_false, Bool.false_eq_true]
          cases hf : firstOverlappingPizza hand.bbox ps with
          | none => simpa using ih
          | some pb => simpa using ih
      · simpa [h1] using ih

/-- Each hand contributes at most one pairing. -/
theorem processHands_length_le (rois : List Box) (ss ps : List Detection)
    (hs : List Detection) :
    (processHands rois ss ps hs).2.length ≤ hs.length := by
  induction hs with
  | nil => simp [processHands]
  | cons hand rest ih =>
      simp only [processHands, List.length_append, List.length_cons]
      by_cases h1 : is_in_roi hand.bbox rois
      · simp only [h1, if_true]
        by_cases h2 : ss.any (fun s => boxes_overlap hand.bbox s.bbox default_iou_threshold)
        · simp only [h2, if_true]; simp; omega
        · simp only [h2, if_false, Bool.false_eq_true]
          cases hf : firstOverlappingPizza hand.bbox ps with
          | none => simp; omega
          | some pb => simp; omega
      · simp only [h1, if_false, Bool.false_eq_true]; simp; omega

/-- With no pizza detections the loop records nothing. -/
theorem processHands_nil_pizzas (rois : List Box) (ss : List Detection)
    (hs : List Detection) :
    processHands rois ss [] hs = (0, []) := by
  induction hs with
  | nil => rfl
  | cons hand rest ih =>
      simp [processHands, firstOverlappingPizza, ih]

/-!
Helper lemmas about the frame-reading loop.
-/

/-- The published sequence numbers are the multiples of the stride among the
source indices `[1, ..., totalFrames]`. -/
theorem read_video_ids (total : Nat) (fps max_fps : ℚ) :
    (read_video total fps max_fps).map FrameMsg.frame_id
      = (List.range' 1 total).filter (fun i => i % frame_skip fps max_fps == 0) := by
  have : (FrameMsg.frame_id ∘ fun i => (⟨i⟩ : FrameMsg)) = id := rfl
  simp [read_video, List.map_map, this]

/-- The stride is at least 1. -/
theorem frame_skip_pos (fps max_fps : ℚ) : 1 ≤ frame_skip fps max_fps :=
  le_max_left 1 _

/-- Membership characterization of the published sequence numbers. -/
theorem read_video_mem (total : Nat) (fps max_fps : ℚ) (i : Nat) :
    i ∈ (read_video total fps max_fps).map FrameMsg.frame_id ↔
      1 ≤ i ∧ i ≤ total ∧ i % frame_skip fps max_fps = 0 := by
  rw [read_video_ids]
  simp only [List.mem_filter, List.mem_range'_1, beq_iff_eq]
  omega

/-- The published sequence numbers are strictly increasing. -/
theorem read_video_sorted (total : Nat) (fps max_fps : ℚ) :
    ((read_video total fps max_fps).map FrameMsg.frame_id).Pairwise (· < ·) := by
  rw [read_video_ids]
  exact (List.pairwise_lt_range' 1 total).filter _

/-- The first published sequence number is the stride itself (when the video
is long enough to publish anything). -/
theorem read_video_head (total : Nat) (fps max_fps : ℚ)
    (h : frame_skip fps max_fps ≤ total) :
    ((read_video total fps max_fps).map FrameMsg.frame_id).head?
      = some (frame_skip fps max_fps) := by
  rw [read_video_ids, List.filter_head?]
  rw [List.find?_range'_eq_some]
  refine ⟨?_, ?_, ?_⟩
  · simp [Nat.mod_self]
  · simp only [List.mem_range'_1]
    have := frame_skip_pos fps max_fps
    omega
  · intro j h1 h2
    have hj : j % frame_skip fps max_fps = j := Nat.mod_eq_of_lt h2
    simp [hj]
    omega

/-!
Helper lemma about the aggregator consumer loop.
-/

/-- Folding `process_detection` over messages that all carry video `v`:
the counter at `v` grows by the sum of the `violation_count` fields and the
latest entry at `v` becomes the last message. -/
theorem consumeAll_const_video (v : Option String) (msgs : List ResultMessage) :
    ∀ st : AggState, (∀ m ∈ msgs, m.video_name = v) → msgs ≠ [] →
      (consumeAll st msgs).video_violations v
          = some ((st.video_violations v).getD 0
                  + (msgs.map ResultMessage.violation_count).sum)
        ∧ (consumeAll st msgs).latest_detections v = msgs.getLast? := by
  induction msgs with
  | nil => intro st _ hne; exact absurd rfl hne
  | cons m tail ih =>
      intro st hall _
      have hm : m.video_name = v := hall m (List.mem_cons_self m tail)
      cases tail with
      | nil =>
          constructor
          · simp only [consumeAll, List.foldl_cons, List.foldl_nil,
              process_detection, hm, if_pos rfl, List.map_cons, List.map_nil,
              List.sum_cons, List.sum_nil]
            cases st.video_violations v <;> simp
          · simp [consumeAll, process_detection, hm]
      | cons m2 rest =>
          have htail : ∀ x ∈ m2 :: rest, x.video_name = v :=
            fun x hx => hall x (List.mem_cons_of_mem m hx)
          obtain ⟨h1, h2⟩ := ih (process_detection st m) htail (by simp)
          have hstep : consumeAll st (m :: m2 :: rest)
              = consumeAll (process_detection st m) (m2 :: rest) := rfl
          constructor
          · rw [hstep, h1]
            have hv : (process_detection st m).video_violations v
                = some ((st.video_violations v).getD 0 + m.violation_count) := by
              simp only [process_detection, hm, if_pos rfl]
              cases st.video_violations v <;> simp
            rw [hv]
            simp only [Option.getD_some, List.map_cons, List.sum_cons,
              Option.some.injEq]
            omega
          · rw [hstep, h2, List.getLast?_cons_cons]

/-!
The claims.
-/

/-- Claim C1, counterexample: on the concrete frame of §8 (one hand in the
ROI, one overlapping pizza, no scooper) the evaluation yields a violation,
and when the store insert raises (`insertOk = false`) the message handler
takes the `except` branch: nothing is published and the message is nacked,
refuting the claim that the DetectionResult is still published and the
frame acknowledged. -/
theorem insert_failure_nack_counterexample :
    0 < (processHands ROIS (scoops sampleDets) (pizzas sampleDets) (hands sampleDets)).1
    ∧ process_frame ROIS false (.parsed sampleMessage) = .nacked := by
  constructor <;> decide

/-- Claim C1, amended: a failing violation insert is caught by the single
per-message exception handler, so for every frame whose evaluation produced
at least one violation pairing the DetectionResult is NOT published and the
message is negatively acknowledged without requeue. -/
theorem insert_failure_nacks_message (rois : List Box) (m : ParsedMessage)
    (dets : List Detection)
    (hf : m.frame = some (.bytes (.image dets)))
    (hv : 0 < (processHands rois (scoops dets) (pizzas dets) (hands dets)).1) :
    process_frame rois false (.parsed m) = .nacked := by
  obtain ⟨vn, fid, ts, fr⟩ := m
  simp only at hf
  subst hf
  simp only [process_frame]
  simp [hv]

/-- Claim C1, witness for the amended theorem at the concrete frame of §8. -/
theorem insert_failure_nacks_message_witness :
    sampleMessage.frame = some (.bytes (.image sampleDets))
    ∧ process_frame ROIS false (.parsed sampleMessage) = .nacked :=
  ⟨rfl, insert_failure_nacks_message ROIS sampleMessage sampleDets rfl (by decide)⟩

/-- Claim C2: the pairing list built by rule evaluation is exactly the
per-hand first-match map described by the spec (in hand-list order, ROI
overlap required, scooper coverage excluding, first overlapping pizza in
pizza-list order), the violation count equals the number of pairings, and
with zero hands or zero pizzas the evaluation yields count 0 and an empty
pairing list. -/
theorem rule_evaluation_pairings (rois : List Box) (dets ss ps hs : List Detection) :
    (processHands rois (scoops dets) (pizzas dets) (hands dets)).2
        = (hands dets).filterMap (handViolationSpec rois (scoops dets) (pizzas dets))
    ∧ (processHands rois (scoops dets) (pizzas dets) (hands dets)).1
        = ((hands dets).filterMap (handViolationSpec rois (scoops dets) (pizzas dets))).length
    ∧ processHands rois ss ps [] = (0, [])
    ∧ processHands rois ss [] hs = (0, []) :=
  ⟨processHands_snd rois (scoops dets) (pizzas dets) (hands dets),
   by rw [processHands_fst, processHands_snd],
   rfl,
   processHands_nil_pizzas rois ss hs⟩

/-- Claim C3: `boxes_overlap` holds iff the intersection rectangle has
strictly positive area (left < right and top < bottom), for every threshold
value; in particular two rectangles sharing only a boundary edge or only a
corner do not overlap. -/
theorem overlap_iff_positive_area (A B : Box) (t : ℚ) :
    (boxes_overlap A B t = true ↔
      (max A.x1 B.x1 < min A.x2 B.x2 ∧ max A.y1 B.y1 < min A.y2 B.y2))
    ∧ boxes_overlap ⟨0, 0, 5, 5⟩ ⟨5, 0, 10, 5⟩ t = false
    ∧ boxes_overlap ⟨0, 0, 5, 5⟩ ⟨5, 5, 10, 10⟩ t = false := by
  refine ⟨?_, rfl, rfl⟩
  unfold boxes_overlap
  by_cases h1 : min A.x2 B.x2 < max A.x1 B.x1 ∨ min A.y2 B.y2 < max A.y1 B.y1
  · rw [if_pos h1]
    simp only [Bool.false_eq_true, false_iff]
    rintro ⟨hx, hy⟩
    rcases h1 with h | h <;> omega
  · rw [if_neg h1]
    push_neg at h1
    obtain ⟨hlr, htb⟩ := h1
    by_cases h2 : (min A.x2 B.x2 - max A.x1 B.x1) * (min A.y2 B.y2 - max A.y1 B.y1) ≤ 0
    · rw [if_pos h2]
      simp only [Bool.false_eq_true, false_iff]
      rintro ⟨hx, hy⟩
      have hp : 0 < (min A.x2 B.x2 - max A.x1 B.x1) * (min A.y2 B.y2 - max A.y1 B.y1) :=
        mul_pos (by omega) (by omega)
      omega
    · rw [if_neg h2]
      simp only [true_iff]
      push_neg at h2
      constructor
      · by_contra hc
        push_neg at hc
        have hx0 : min A.x2 B.x2 - max A.x1 B.x1 = 0 := by omega
        simp [hx0] at h2
      · by_contra hc
        push_neg at hc
        have hy0 : min A.y2 B.y2 - max A.y1 B.y1 = 0 := by omega
        simp [hy0] at h2

/-- Claim C4, counterexample: a run in which every store-connection attempt
fails (and the broker is reachable) still reaches steady state in both
services — the detection service consumes frames with no database connection
and the streaming service serves HTTP with `manager` unbound — refuting the
claim that exhausting the retries aborts the process. -/
theorem retry_exhaustion_counterexample :
    detection_main (fun _ => false) (fun _ => true) = .running false
    ∧ streaming_main (fun _ => false) (fun _ => true) = .running false :=
  ⟨rfl, rfl⟩

/-- Claim C4, amended: startup connections do perform a bounded retry of
exactly 5 attempts (only attempt indices 0..4 are consulted), but exhausting
them does not abort: the detection connect method returns `none` and the
process proceeds, and the streaming connect method raises but the
module-level handler swallows the error and the server still runs. -/
theorem retry_exhaustion_no_abort (dbOk mqOk : Nat → Bool)
    (hdb : ∀ i, i < 5 → dbOk i = false) (hmq : mqOk 0 = true) :
    detection_connect dbOk = none
    ∧ detection_main dbOk mqOk = .running false
    ∧ streaming_connect dbOk = .error ()
    ∧ streaming_main dbOk mqOk = .running false := by
  have h0 := hdb 0 (by omega)
  have h1 := hdb 1 (by omega)
  have h2 := hdb 2 (by omega)
  have h3 := hdb 3 (by omega)
  have h4 := hdb 4 (by omega)
  have hconn : connect_attempts dbOk 5 0 = none := by
    simp [connect_attempts, h0, h1, h2, h3, h4]
  refine ⟨?_, ?_, ?_, ?_⟩
  · simpa [detection_connect] using hconn
  · simp [detection_main, detection_connect, connect_attempts, hmq, h0, h1, h2, h3, h4]
  · simp [streaming_connect, hconn]
  · simp [streaming_main, streaming_manager_init, streaming_connect, hconn,
      Bind.bind, Except.bind]

/-- Claim C4, witness for the amended theorem: all attempts failing on the
store, broker reachable. -/
theorem retry_exhaustion_no_abort_witness :
    detection_connect (fun _ => false) = none
    ∧ streaming_main (fun _ => false) (fun _ => true) = .running false :=
  ⟨(retry_exhaustion_no_abort (fun _ => false) (fun _ => true) (fun _ _ => rfl) rfl).1,
   (retry_exhaustion_no_abort (fun _ => false) (fun _ => true) (fun _ _ => rfl) rfl).2.2.2⟩

/-- Claim C5, counterexample: when both store queries behind
`GET /api/violations/<video>` raise, the endpoint still answers 200 with
substitute data (`total_violations = 0`, `violations = []`) and no error
body, refuting the claim that a failing store query is surfaced as a 5xx. -/
theorem query_failure_http200_counterexample :
    get_violations_route true (.error "connection refused") (.error "connection refused")
      = ⟨200, some 0, some [], none⟩ := rfl

/-- Claim C5, amended: only errors that reach an endpoint handler produce a
500 with an error body (as in `GET /api/violations-list`, whose query runs
inside the handler, and in any endpoint when `manager` is unbound); a
failing store query inside the two read helpers is caught there and replaced
by the substitute values 0 and [], so `GET /api/violations/<video>` answers
200 with substitute data. -/
theorem query_error_surfacing (e1 e2 e : String) (n : Nat) (rows : List DBRow)
    (vids : List (String × Nat)) :
    get_violations_route true (.error e1) (.error e2) = ⟨200, some 0, some [], none⟩
    ∧ get_violations_route true (.ok n) (.ok rows) = ⟨200, some n, some rows, none⟩
    ∧ violations_list_route true (.error e) = ⟨500, none, some e⟩
    ∧ violations_list_route true (.ok vids) = ⟨200, some vids, none⟩
    ∧ (get_violations_route false (.error e1) (.error e2)).status = 500
    ∧ (violations_list_route false (.error e)).status = 500 :=
  ⟨rfl, rfl, rfl, rfl, rfl, rfl⟩

/-- Claim C6, counterexample: a message body that fails JSON parsing raises
inside the handler and is negatively acknowledged without requeue — not
acknowledged — refuting the claim that every malformed input exits by
acknowledge-and-drop. -/
theorem malformed_message_nack_counterexample :
    process_frame ROIS true Body.malformed = .nacked := rfl

/-- Claim C6, amended: the two decode failures that the handler checks
explicitly (missing `frame` field, image bytes that `imdecode` rejects) are
acknowledged and dropped; a body that fails JSON parsing or base64 decoding
raises and is negatively acknowledged without requeue.  Both exits drop the
message without retry and are non-fatal to the process. -/
theorem malformed_input_disposition (rois : List Box) (insertOk : Bool)
    (vn : Option String) (fid : Option Nat) (ts : Option ℚ) :
    process_frame rois insertOk .malformed = .nacked
    ∧ process_frame rois insertOk (.parsed ⟨vn, fid, ts, none⟩) = .ackDropped
    ∧ process_frame rois insertOk (.parsed ⟨vn, fid, ts, some .badBase64⟩) = .nacked
    ∧ process_frame rois insertOk (.parsed ⟨vn, fid, ts, some (.bytes .undecodable)⟩)
        = .ackDropped :=
  ⟨rfl, rfl, rfl, rfl⟩

/-- Claim C7, counterexample: with native rate 25 and target rate 5 the
stride is 5, and on a 10-frame video the published sequence numbers are
[5, 10] — the first is the stride, not 1 — refuting the claim that the
per-video sequence numbers start at 1. -/
theorem first_published_seq_counterexample :
    frame_skip 25 5 = 5
    ∧ (read_video 10 25 5).map FrameMsg.frame_id = [5, 10]
    ∧ ((read_video 10 25 5).map FrameMsg.frame_id).head? ≠ some 1 := by
  have hf : ⌊(25:ℚ)/5⌋ = 5 := by norm_num
  have h : frame_skip 25 5 = 5 := by simp [frame_skip, hf]
  refine ⟨h, ?_, ?_⟩
  · rw [read_video_ids]
    simp only [h]
    decide
  · rw [read_video_ids]
    simp only [h]
    decide

/-- Claim C7, amended: the stride is `max(1, floor(nativeRate/samplingRate))`
and is at least 1; the published frames are exactly those whose source index
is a positive multiple of the stride; each published message carries the
source frame index as its sequence number, so the sequence numbers are
strictly increasing with gaps at decimated positions, and the first
published sequence number equals the stride (which is 1 only when the
stride is 1). -/
theorem decimation_properties (total : Nat) (fps max_fps : ℚ) :
    1 ≤ frame_skip fps max_fps
    ∧ (∀ i : Nat, i ∈ (read_video total fps max_fps).map FrameMsg.frame_id ↔
        (1 ≤ i ∧ i ≤ total ∧ i % frame_skip fps max_fps = 0))
    ∧ ((read_video total fps max_fps).map FrameMsg.frame_id).Pairwise (· < ·)
    ∧ (frame_skip fps max_fps ≤ total →
        ((read_video total fps max_fps).map FrameMsg.frame_id).head?
          = some (frame_skip fps max_fps)) :=
  ⟨frame_skip_pos fps max_fps, read_video_mem total fps max_fps,
   read_video_sorted total fps max_fps, read_video_head total fps max_fps⟩

/-- Claim C7, witness for the amended theorem with native rate 25, target
rate 5 and a 10-frame video. -/
theorem decimation_properties_witness :
    frame_skip 25 5 ≤ 10
    ∧ ((read_video 10 25 5).map FrameMsg.frame_id).head? = some (frame_skip 25 5) := by
  have hf : ⌊(25:ℚ)/5⌋ = 5 := by norm_num
  have h5 : frame_skip 25 5 = 5 := by simp [frame_skip, hf]
  exact ⟨by rw [h5]; norm_num, (decimation_properties 10 25 5).2.2.2 (by rw [h5]; norm_num)⟩

/-- Claim C8: after consuming any nonempty sequence of DetectionResult
messages for one video starting from the initial (empty) state, the
per-video counter equals the sum of the violation_count fields and the
latest-result entry is the last message consumed. -/
theorem aggregator_counter_sum (v : Option String) (msgs : List ResultMessage)
    (hall : ∀ m ∈ msgs, m.video_name = v) (hne : msgs ≠ []) :
    (consumeAll initAggState msgs).video_violations v
        = some ((msgs.map ResultMessage.violation_count).sum)
    ∧ (consumeAll initAggState msgs).latest_detections v = msgs.getLast? := by
  obtain ⟨h1, h2⟩ := consumeAll_const_video v msgs initAggState hall hne
  constructor
  · simpa [initAggState] using h1
  · exact h2

/-- Claim C8, witness: two messages with counts 3 and 4 give counter 7 and
latest entry the second message. -/
theorem aggregator_counter_sum_witness :
    (consumeAll initAggState sampleResults).video_violations (some "vid") = some 7
    ∧ (consumeAll initAggState sampleResults).latest_detections (some "vid")
        = some ⟨some "vid", some 2, [], 4⟩ := by
  obtain ⟨h1, h2⟩ := aggregator_counter_sum (some "vid") sampleResults (by decide) (by decide)
  exact ⟨by simpa [sampleResults] using h1, by simpa [sampleResults] using h2⟩

/-- Claim C9: the IoU-style threshold parameter of the overlap predicate has
no effect on the result — the predicate is the same function for any two
threshold values. -/
theorem iou_threshold_no_effect (A B : Box) (t1 t2 : ℚ) :
    boxes_overlap A B t1 = boxes_overlap A B t2 := rfl

/-- Claim C10: for every frame that the handler processes to a published,
acknowledged result, the violation_count field of the result equals the
length of the pairing list built for the frame, both are at most the number
of hand detections, and the store insert was performed iff the count is at
least 1. -/
theorem published_count_invariants (rois : List Box) (insertOk : Bool)
    (m : ParsedMessage) (dets : List Detection) (res : ResultMessage) (ins : Bool)
    (hf : m.frame = some (.bytes (.image dets)))
    (h : process_frame rois insertOk (.parsed m) = .ackedResult res ins) :
    res.violation_count
        = (processHands rois (scoops dets) (pizzas dets) (hands dets)).2.length
    ∧ res.violation_count ≤ (hands dets).length
    ∧ (ins = true ↔ 1 ≤ res.violation_count) := by
  obtain ⟨vn, fid, ts, fr⟩ := m
  simp only at hf
  subst hf
  simp only [process_frame] at h
  have hfst := processHands_fst rois (scoops dets) (pizzas dets) (hands dets)
  have hle := processHands_length_le rois (scoops dets) (pizzas dets) (hands dets)
  by_cases hc : (processHands rois (scoops dets) (pizzas dets) (hands dets)).1 > 0
  · rw [if_pos hc] at h
    cases insertOk with
    | false => simp at h
    | true =>
        simp only [if_true] at h
        injection h with h1 h2
        subst h1
        subst h2
        exact ⟨hfst, le_trans (le_of_eq hfst) hle, iff_of_true rfl hc⟩
  · rw [if_neg hc] at h
    injection h with h1 h2
    subst h1
    subst h2
    have hz : (processHands rois (scoops dets) (pizzas dets) (hands dets)).1 = 0 := by
      omega
    refine ⟨hfst, le_trans (le_of_eq hfst) hle, ?_⟩
    simp [hz]

/-- Claim C10, witness at the concrete frame of §8 with a succeeding
insert. -/
theorem published_count_invariants_witness :
    (⟨some "vid", some 7, sampleDets, 1⟩ : ResultMessage).violation_count
        = (processHands ROIS (scoops sampleDets) (pizzas sampleDets) (hands sampleDets)).2.length
    ∧ (⟨some "vid", some 7, sampleDets, 1⟩ : ResultMessage).violation_count
        ≤ (hands sampleDets).length
    ∧ ((true : Bool) = true ↔
        1 ≤ (⟨some "vid", some 7, sampleDets, 1⟩ : ResultMessage).violation_count) :=
  published_count_invariants ROIS true sampleMessage sampleDets _ _ rfl (by decide)
